import Mathlib

/-!
Shallow embedding of the position state machine of idasen.py
(Norbiox/idasen-tray-icon).

The embedded core consists of:
* the module constant POSITIONS_TIMES (dwell minutes per position name);
* TimeCounter (a one-shot abortable timer thread): its mutable abort flag
  and the outcome of its run() body are modelled as a small record with a
  phase field recording whether run() has returned and how;
* MainFrame: the fields __position_change_nagging_enabled, __position,
  __position_change_counter and the handlers _change_position,
  _start_position_change_counter, _toggle_position, together with
  TaskBarIcon.on_position (the UI request entry point).

Effects are made explicit:
* set_idasen_position (a fire-and-forget subprocess spawn) is recorded as an
  append to a moverCalls log;
* read_positions_from_idasen_config_file is a fresh read on every
  _change_position call; it is passed in per call as an Except value
  (the Python function either returns the positions mapping or raises, and
  the exception propagates uncaught out of _change_position);
* wx event posting on the single GUI event loop is modelled twice: first
  as an atomic serialized command stream in which posting an event and
  dispatching its handler are one step, and then refined (QState, at the
  end of the file) with the GUI queue explicit, where wx.PostEvent only
  appends to the queue and the bound handler runs later, when the loop
  dispatches that event — the refinement exposes the window in which an
  already-posted event is still pending.

Timers are stored in an arena (association list from a numeric id to the
timer record); the frame stores the id of the counter it holds, mirroring
the Python object reference in __position_change_counter.
-/

namespace Idasen

/-- Outcome of the run() body of a TimeCounter thread: still sleeping
(running), returned after posting the timeout event (firedPhase), or
returned early because _want_abort was set (abortedPhase). The body
executes at most once, which the phase guard in expireTimer encodes. -/
inductive TimerPhase where
  | running : TimerPhase
  | firedPhase : TimerPhase
  | abortedPhase : TimerPhase
deriving DecidableEq, Repr

/-- State of one TimeCounter: the _want_abort flag, the phase of its run()
body, and _sleep_time (seconds, set by start as minutes * 60). -/
structure TimerData where
  wantAbort : Bool
  phase : TimerPhase
  sleepTime : Nat
deriving DecidableEq, Repr

/-- TimeCounter.abort: sets the _want_abort flag. -/
def abortCounter (td : TimerData) : TimerData :=
  { td with wantAbort := true }

/-- The timer fired: it posted its timeout event (run() passed the
_want_abort check). -/
def timerFired (td : TimerData) : Prop :=
  td.phase = TimerPhase.firedPhase

/-- The timer was aborted before firing: run() observed _want_abort after
its sleep and returned without posting. -/
def timerAborted (td : TimerData) : Prop :=
  td.phase = TimerPhase.abortedPhase

/-- Errors of read_positions_from_idasen_config_file: the config file is
missing (open raises) or unparseable (yaml.safe_load / key lookup raises).
Either exception propagates out of _change_position. -/
inductive ConfigError where
  | fileMissing : ConfigError
  | unparseable : ConfigError
deriving DecidableEq, Repr

/-- The positions mapping read from the idasen config file: position name
to height. -/
abbrev Config := List (String × Nat)

/-- One fresh read of the config source: the mapping, or the exception the
read raised. -/
abbrev ConfigRead := Except ConfigError Config

/-- Python membership test name in positions (dict key lookup). -/
def containsKey (ps : Config) (name : String) : Bool :=
  ps.any fun p => p.1 = name

/-- POSITIONS_TIMES = { "stand": 1, "sit": 1 } — the module-level dwell
policy, in minutes. -/
def POSITIONS_TIMES : List (String × Nat) :=
  [("stand", 1), ("sit", 1)]

/-- Python dict .get(name, None) on an association list. -/
def dictGet (d : List (String × Nat)) (name : String) : Option Nat :=
  (d.find? fun p => p.1 = name).map fun p => p.2

/-- Timer arena lookup by id. -/
def arenaGet (ts : List (Nat × TimerData)) (id : Nat) : Option TimerData :=
  (ts.find? fun p => p.1 = id).map fun p => p.2

/-- Timer arena update: apply f to the timer stored under id. -/
def arenaSet (ts : List (Nat × TimerData)) (id : Nat) (f : TimerData → TimerData) :
    List (Nat × TimerData) :=
  ts.map fun p => if p.1 = id then (p.1, f p.2) else p

/-- Result of a _change_position dispatch: the handler ran to completion
(ok), returned early at the validation check after logging the invalid
name (invalidPosition), or the config read raised and the exception
propagated (configUnavailable). -/
inductive ChangeResult where
  | ok : ChangeResult
  | invalidPosition : ChangeResult
  | configUnavailable : ChangeResult
deriving DecidableEq, Repr

/-- The whole mutable state owned by the MainFrame and the timers it has
started: __position_change_nagging_enabled, __position,
__position_change_counter (as an arena id), the timer arena, a fresh-id
counter, and the log of set_idasen_position invocations. -/
structure SysState where
  naggingEnabled : Bool
  position : Option String
  counterId : Option Nat
  timers : List (Nat × TimerData)
  nextId : Nat
  moverCalls : List String
deriving DecidableEq, Repr

/-- MainFrame.__init__: no position, no counter, nagging per the
constructor argument. -/
def initState (nagging : Bool) : SysState :=
  { naggingEnabled := nagging
    position := none
    counterId := none
    timers := []
    nextId := 0
    moverCalls := [] }

/-- MainFrame._start_position_change_counter: look up the dwell minutes in
POSITIONS_TIMES; on a falsy result (absent, i.e. None, or 0) return with
no effect; otherwise abort the current counter if one is stored, then
create a fresh TimeCounter, start it with minutes * 60 seconds of sleep,
and store it. -/
def startPositionChangeCounter (s : SysState) (name : String) : SysState :=
  match dictGet POSITIONS_TIMES name with
  | none => s
  | some t =>
    if t = 0 then s
    else
      let s1 :=
        match s.counterId with
        | none => s
        | some old => { s with timers := arenaSet s.timers old abortCounter }
      { s1 with
          timers := (s1.nextId, ⟨false, TimerPhase.running, t * 60⟩) :: s1.timers
          counterId := some s1.nextId
          nextId := s1.nextId + 1 }

/-- MainFrame._change_position handling one PositionChangeEvent, with the
fresh config read of this call passed in. An exception from the read
propagates (configUnavailable) before anything is touched; an unknown name
is logged and the handler returns (invalidPosition); otherwise __position
is set, set_idasen_position is spawned, and, when nagging is enabled, the
dwell counter is set up. -/
def changePosition (s : SysState) (cfg : ConfigRead) (name : String) :
    SysState × ChangeResult :=
  match cfg with
  | Except.error _ => (s, ChangeResult.configUnavailable)
  | Except.ok positions =>
    if containsKey positions name = false then
      (s, ChangeResult.invalidPosition)
    else
      let s1 := { s with
                    position := some name
                    moverCalls := s.moverCalls ++ [name] }
      let s2 := if s1.naggingEnabled then startPositionChangeCounter s1 name else s1
      (s2, ChangeResult.ok)

/-- TaskBarIcon.on_position: a UI request for a position. If the name
equals the frame's current position, return without posting; otherwise
post a PositionChangeEvent, whose dispatch on the event loop runs
_change_position with a fresh config read. The second component is none
when no event was posted. -/
def onPosition (s : SysState) (cfg : ConfigRead) (name : String) :
    SysState × Option ChangeResult :=
  if s.position = some name then (s, none)
  else
    let r := changePosition s cfg name
    (r.1, some r.2)

/-- The complement computation of MainFrame._toggle_position:
"sit" if self.current_position == "stand" else "stand". -/
def nextPositionOf (pos : Option String) : String :=
  if pos = some "stand" then "sit" else "stand"

/-- MainFrame._toggle_position handling a PositionTimeoutEvent: compute the
complement of the current position and post a PositionChangeEvent for it,
whose dispatch runs _change_position with a fresh config read. -/
def togglePosition (s : SysState) (cfg : ConfigRead) : SysState × ChangeResult :=
  changePosition s cfg (nextPositionOf s.position)

/-- The sleep of timer id elapsing and its run() body resuming on the
serialized stream: nothing if the id is unknown or run() already returned;
otherwise, if _want_abort was set the body returns without posting
(phase abortedPhase); otherwise it posts the PositionTimeoutEvent
(phase firedPhase), whose dispatch runs _toggle_position. -/
def expireTimer (s : SysState) (id : Nat) (cfg : ConfigRead) : SysState :=
  match arenaGet s.timers id with
  | none => s
  | some td =>
    match td.phase with
    | TimerPhase.running =>
      if td.wantAbort then
        { s with timers := arenaSet s.timers id fun u => { u with phase := TimerPhase.abortedPhase } }
      else
        let s1 := { s with timers := arenaSet s.timers id fun u => { u with phase := TimerPhase.firedPhase } }
        (togglePosition s1 cfg).1
    | TimerPhase.firedPhase => s
    | TimerPhase.abortedPhase => s

/-- One command on the serialized command stream of the spec: a UI position
request dispatched through on_position, or the natural expiry of a timer's
sleep. Each carries the config read the triggered _change_position (if
any) performs. -/
inductive Cmd where
  | request : String → ConfigRead → Cmd
  | expire : Nat → ConfigRead → Cmd

/-- Process one command. -/
def step (s : SysState) (c : Cmd) : SysState :=
  match c with
  | Cmd.request name cfg => (onPosition s cfg name).1
  | Cmd.expire id cfg => expireTimer s id cfg

/-- Process a command list in arrival order. -/
def run (s : SysState) (cs : List Cmd) : SysState :=
  cs.foldl step s

end Idasen

namespace Idasen

/-! ### Arena lemmas -/

theorem arenaGet_cons_self (ts : List (Nat × TimerData)) (n : Nat) (td : TimerData) :
    arenaGet ((n, td) :: ts) n = some td := by
  simp [arenaGet, List.find?]

theorem arenaGet_cons_ne (ts : List (Nat × TimerData)) (n m : Nat) (td : TimerData)
    (h : m ≠ n) : arenaGet ((n, td) :: ts) m = arenaGet ts m := by
  simp [arenaGet, List.find?, Ne.symm h]

theorem arenaGet_arenaSet_self (ts : List (Nat × TimerData)) (id : Nat)
    (f : TimerData → TimerData) :
    arenaGet (arenaSet ts id f) id = (arenaGet ts id).map f := by
  induction ts with
  | nil => rfl
  | cons p ts ih =>
    by_cases h : p.1 = id
    · simp [arenaSet, arenaGet, List.find?, h]
    · simp only [arenaSet, List.map_cons, if_neg h]
      rw [show (arenaSet ts id f) = List.map _ ts from rfl] at ih
      simp [arenaGet, List.find?, h] at ih ⊢
      exact ih

theorem arenaSet_mem {ts : List (Nat × TimerData)} {id : Nat} {f : TimerData → TimerData}
    {q : Nat × TimerData} (hq : q ∈ arenaSet ts id f) :
    ∃ p ∈ ts, q.1 = p.1 ∧ q.2 = (if p.1 = id then f p.2 else p.2) := by
  rcases List.mem_map.mp hq with ⟨p, hp, hpq⟩
  refine ⟨p, hp, ?_⟩
  by_cases h : p.1 = id
  · simp [h] at hpq
    subst hpq
    simp [h]
  · simp [h] at hpq
    subst hpq
    simp [h]

end Idasen

namespace Idasen

/-! ### Field-preservation lemmas -/

theorem startCounter_preserves (s : SysState) (name : String) :
    (startPositionChangeCounter s name).naggingEnabled = s.naggingEnabled ∧
    (startPositionChangeCounter s name).position = s.position ∧
    (startPositionChangeCounter s name).moverCalls = s.moverCalls ∧
    (startPositionChangeCounter s name).nextId ≤ s.nextId + 1 := by
  unfold startPositionChangeCounter
  cases dictGet POSITIONS_TIMES name with
  | none => simp
  | some t =>
    by_cases ht : t = 0
    · simp [ht]
    · cases h : s.counterId <;> simp [ht, h]

theorem dictGet_positions_times_sit : dictGet POSITIONS_TIMES "sit" = some 1 := by
  decide

theorem dictGet_positions_times_stand : dictGet POSITIONS_TIMES "stand" = some 1 := by
  decide

theorem dictGet_positions_times_none (name : String) (h1 : name ≠ "sit")
    (h2 : name ≠ "stand") : dictGet POSITIONS_TIMES name = none := by
  simp [dictGet, POSITIONS_TIMES, List.find?, h1, h2, Ne.symm h1, Ne.symm h2]

end Idasen

namespace Idasen

/-- C5: Validation atomicity — for a name absent from the freshly read
positions mapping, _change_position returns at the validation check with
the invalid-position outcome and the whole state (current position, the
stored counter, the timer arena, the desk-mover log) exactly as it was. -/
theorem invalid_position_leaves_state (s : SysState) (ps : Config) (name : String)
    (h : containsKey ps name = false) :
    changePosition s (Except.ok ps) name = (s, ChangeResult.invalidPosition) := by
  simp [changePosition, h]

/-- Witness for invalid_position_leaves_state at a concrete input. -/
theorem invalid_position_leaves_state_witness :
    containsKey [("sit", 10), ("stand", 74)] "nonexistent" = false ∧
    changePosition (initState true) (Except.ok [("sit", 10), ("stand", 74)]) "nonexistent" =
      (initState true, ChangeResult.invalidPosition) :=
  ⟨by decide, invalid_position_leaves_state _ _ _ (by decide)⟩

/-- C8: Config-failure semantics — the positions mapping is re-read on
every _change_position dispatch (in this embedding the fresh read is the
per-call cfg argument, never stored in SysState), and when the read raises
the handler fails with the config-unavailable outcome, distinct from the
invalid-position outcome, leaving the state untouched: no position update,
no counter abort or replacement, no desk-mover invocation. -/
theorem config_failure_unavailable (s : SysState) (e : ConfigError) (name : String) :
    changePosition s (Except.error e) name = (s, ChangeResult.configUnavailable) :=
  rfl

/-- C9: Fixed dwell policy — dwell durations come only from
POSITIONS_TIMES, so a position change to any name other than "sit" and
"stand" never creates a timer, never aborts one, and never touches the
stored counter, even when the name is present in the config read. -/
theorem dwell_only_from_builtin_policy (s : SysState) (cfg : ConfigRead) (name : String)
    (h1 : name ≠ "sit") (h2 : name ≠ "stand") :
    ((changePosition s cfg name).1).timers = s.timers ∧
    ((changePosition s cfg name).1).counterId = s.counterId ∧
    ((changePosition s cfg name).1).nextId = s.nextId := by
  cases cfg with
  | error e => simp [changePosition]
  | ok ps =>
    by_cases hm : containsKey ps name = false
    · simp [changePosition, hm]
    · simp only [changePosition, hm, if_neg, Bool.not_eq_false, if_false]
      by_cases hn : s.naggingEnabled
      · simp [hn, startPositionChangeCounter, dictGet_positions_times_none name h1 h2]
      · simp [hn]

/-- Witness for dwell_only_from_builtin_policy at a concrete input: "lean"
is present in the config read yet starts no timer. -/
theorem dwell_only_from_builtin_policy_witness :
    ("lean" ≠ "sit" ∧ "lean" ≠ "stand") ∧
    (((changePosition (initState true) (Except.ok [("sit", 10), ("lean", 50)]) "lean").1).timers =
        (initState true).timers ∧
      ((changePosition (initState true) (Except.ok [("sit", 10), ("lean", 50)]) "lean").1).counterId =
        (initState true).counterId ∧
      ((changePosition (initState true) (Except.ok [("sit", 10), ("lean", 50)]) "lean").1).nextId =
        (initState true).nextId) :=
  ⟨⟨by decide, by decide⟩,
    dwell_only_from_builtin_policy (initState true) (Except.ok [("sit", 10), ("lean", 50)])
      "lean" (by decide) (by decide)⟩

/-- C10: Toggle default target — the timeout handler posts a change to
"sit" exactly when the current position is "stand", and to "stand" for
every other current position, including none and names outside the
sit/stand pair. -/
theorem toggle_default_target (s : SysState) (cfg : ConfigRead) :
    (s.position = some "stand" → togglePosition s cfg = changePosition s cfg "sit") ∧
    (s.position ≠ some "stand" → togglePosition s cfg = changePosition s cfg "stand") := by
  constructor
  · intro h
    simp [togglePosition, nextPositionOf, h]
  · intro h
    simp [togglePosition, nextPositionOf, h]

/-- Witness for toggle_default_target: the "stand" leg at position "stand"
and the other leg at the out-of-pair position "desk". -/
theorem toggle_default_target_witness :
    (togglePosition { initState true with position := some "stand" } (Except.ok []) =
      changePosition { initState true with position := some "stand" } (Except.ok []) "sit") ∧
    (togglePosition { initState true with position := some "desk" } (Except.ok []) =
      changePosition { initState true with position := some "desk" } (Except.ok []) "stand") :=
  ⟨(toggle_default_target _ _).1 (by decide),
    (toggle_default_target { initState true with position := some "desk" } _).2 (by decide)⟩

end Idasen

namespace Idasen

/-- C4 counterexample: reach a state with a running active timer (id 0,
started for "sit"), then accept a change to "lean" — a name in the config
read with no POSITIONS_TIMES entry. The claim demands that the active
timer be aborted and the slot cleared; in fact the dispatch returns early
before touching the counter: the slot still holds timer 0 and its abort
flag is still false. -/
theorem no_dwell_abort_clear_counterexample :
    ((onPosition
        (run (initState true) [Cmd.request "sit" (Except.ok [("sit", 10), ("stand", 74), ("lean", 50)])])
        (Except.ok [("sit", 10), ("stand", 74), ("lean", 50)]) "lean").2 = some ChangeResult.ok) ∧
    ((onPosition
        (run (initState true) [Cmd.request "sit" (Except.ok [("sit", 10), ("stand", 74), ("lean", 50)])])
        (Except.ok [("sit", 10), ("stand", 74), ("lean", 50)]) "lean").1.position = some "lean") ∧
    ¬ ((onPosition
        (run (initState true) [Cmd.request "sit" (Except.ok [("sit", 10), ("stand", 74), ("lean", 50)])])
        (Except.ok [("sit", 10), ("stand", 74), ("lean", 50)]) "lean").1.counterId = none) ∧
    arenaGet
      ((onPosition
        (run (initState true) [Cmd.request "sit" (Except.ok [("sit", 10), ("stand", 74), ("lean", 50)])])
        (Except.ok [("sit", 10), ("stand", 74), ("lean", 50)]) "lean").1.timers) 0 =
      some ⟨false, TimerPhase.running, 60⟩ := by
  decide

/-- C4 amended: when nagging is disabled, or POSITIONS_TIMES has no entry
for the new name, or the entry is zero, an accepted position change
creates no new timer and leaves the timer bookkeeping exactly as it was:
the stored counter is neither aborted nor cleared and the timer arena is
untouched. -/
theorem no_dwell_change_leaves_timer (s : SysState) (cfg : ConfigRead) (name : String)
    (h : s.naggingEnabled = false ∨ dictGet POSITIONS_TIMES name = none ∨
      dictGet POSITIONS_TIMES name = some 0) :
    ((changePosition s cfg name).1).timers = s.timers ∧
    ((changePosition s cfg name).1).counterId = s.counterId ∧
    ((changePosition s cfg name).1).nextId = s.nextId := by
  cases cfg with
  | error e => simp [changePosition]
  | ok ps =>
    by_cases hm : containsKey ps name = false
    · simp [changePosition, hm]
    · simp only [changePosition, hm, Bool.not_eq_false, if_false]
      rcases h with hn | hd | hd
      · simp [hn]
      · by_cases hne : s.naggingEnabled <;>
          simp [hne, startPositionChangeCounter, hd]
      · by_cases hne : s.naggingEnabled <;>
          simp [hne, startPositionChangeCounter, hd]

/-- Witness for no_dwell_change_leaves_timer at the concrete "lean"
change from a state holding a running timer. -/
theorem no_dwell_change_leaves_timer_witness :
    (dictGet POSITIONS_TIMES "lean" = none) ∧
    (((changePosition
        { naggingEnabled := true, position := some "sit", counterId := some 0,
          timers := [(0, ⟨false, TimerPhase.running, 60⟩)], nextId := 1,
          moverCalls := ["sit"] }
        (Except.ok [("sit", 10), ("lean", 50)]) "lean").1).timers =
        [(0, ⟨false, TimerPhase.running, 60⟩)] ∧
      ((changePosition
        { naggingEnabled := true, position := some "sit", counterId := some 0,
          timers := [(0, ⟨false, TimerPhase.running, 60⟩)], nextId := 1,
          moverCalls := ["sit"] }
        (Except.ok [("sit", 10), ("lean", 50)]) "lean").1).counterId = some 0 ∧
      ((changePosition
        { naggingEnabled := true, position := some "sit", counterId := some 0,
          timers := [(0, ⟨false, TimerPhase.running, 60⟩)], nextId := 1,
          moverCalls := ["sit"] }
        (Except.ok [("sit", 10), ("lean", 50)]) "lean").1).nextId = 1) :=
  ⟨by decide,
    no_dwell_change_leaves_timer _ _ "lean" (Or.inr (Or.inl (by decide)))⟩

end Idasen

namespace Idasen

theorem changePosition_accepted_fields (s : SysState) (ps : Config) (name : String)
    (hm : containsKey ps name = true) :
    ((changePosition s (Except.ok ps) name).1).position = some name ∧
    ((changePosition s (Except.ok ps) name).1).moverCalls = s.moverCalls ++ [name] ∧
    ((changePosition s (Except.ok ps) name).1).nextId ≤ s.nextId + 1 := by
  simp only [changePosition, hm, Bool.true_eq_false, if_false]
  by_cases hn : s.naggingEnabled
  · have h := startCounter_preserves
      { s with position := some name, moverCalls := s.moverCalls ++ [name] } name
    rw [hn] at h
    simp only [hn, if_true]
    exact ⟨h.2.1, h.2.2.1, h.2.2.2⟩
  · simp [hn]

/-- C3: Idempotence of a position request — a request for the frame's
current position returns at the on_position guard, posting nothing and
leaving the state untouched; consequently, two consecutive requests for
the same valid name from a state not already at it produce exactly one
desk-mover invocation and at most one timer start (the second request is a
complete no-op). -/
theorem apply_position_idempotent (s : SysState) (cfg2 : ConfigRead) (ps : Config)
    (name : String) :
    (s.position = some name → ∀ cfg, onPosition s cfg name = (s, none)) ∧
    (containsKey ps name = true → s.position ≠ some name →
      (onPosition ((onPosition s (Except.ok ps) name).1) cfg2 name).1 =
        (onPosition s (Except.ok ps) name).1 ∧
      ((onPosition s (Except.ok ps) name).1).moverCalls = s.moverCalls ++ [name] ∧
      ((onPosition s (Except.ok ps) name).1).nextId ≤ s.nextId + 1) := by
  constructor
  · intro h cfg
    simp [onPosition, h]
  · intro hm hne
    have hfields := changePosition_accepted_fields s ps name hm
    have h1 : (onPosition s (Except.ok ps) name).1 = (changePosition s (Except.ok ps) name).1 := by
      simp [onPosition, hne]
    rw [h1]
    refine ⟨?_, hfields.2.1, hfields.2.2⟩
    simp [onPosition, hfields.1]

/-- Witness for apply_position_idempotent: from the initial state, two
consecutive "sit" requests; the second is a no-op, the mover log holds one
entry and one timer was started. -/
theorem apply_position_idempotent_witness :
    (containsKey [("sit", 10), ("stand", 74)] "sit" = true ∧
      (initState true).position ≠ some "sit") ∧
    ((onPosition ((onPosition (initState true) (Except.ok [("sit", 10), ("stand", 74)]) "sit").1)
        (Except.ok [("sit", 10), ("stand", 74)]) "sit").1 =
      (onPosition (initState true) (Except.ok [("sit", 10), ("stand", 74)]) "sit").1 ∧
     ((onPosition (initState true) (Except.ok [("sit", 10), ("stand", 74)]) "sit").1).moverCalls =
      (initState true).moverCalls ++ ["sit"] ∧
     ((onPosition (initState true) (Except.ok [("sit", 10), ("stand", 74)]) "sit").1).nextId ≤
      (initState true).nextId + 1) :=
  ⟨⟨by decide, by decide⟩,
    (apply_position_idempotent (initState true) (Except.ok [("sit", 10), ("stand", 74)])
      [("sit", 10), ("stand", 74)] "sit").2 (by decide) (by decide)⟩

end Idasen

namespace Idasen

/-- An action observed by one TimeCounter: its abort() method being called
by the controller, or its own sleep elapsing (the run() body resuming
after time.sleep). Each logical dwell period uses a fresh instance, and a
thread body resumes from its sleep at most once; a later expireAct on a
terminal record is a no-op by the phase guard. -/
inductive TimerAct where
  | abortAct : TimerAct
  | expireAct : TimerAct
deriving DecidableEq, Repr

/-- One step of a single TimeCounter under an action: abort() sets the
_want_abort flag and emits nothing; expiry runs the rest of run() — if
_want_abort was set the body returns without posting, otherwise it posts
the timeout event. The Bool records whether wx.PostEvent ran. -/
def counterStep (td : TimerData) : TimerAct → TimerData × Bool
  | TimerAct.abortAct => (abortCounter td, false)
  | TimerAct.expireAct =>
    match td.phase with
    | TimerPhase.running =>
      if td.wantAbort then ({ td with phase := TimerPhase.abortedPhase }, false)
      else ({ td with phase := TimerPhase.firedPhase }, true)
    | TimerPhase.firedPhase => (td, false)
    | TimerPhase.abortedPhase => (td, false)

/-- Number of timeout events a TimeCounter posts along a list of actions. -/
def signalCount (td : TimerData) : List TimerAct → Nat
  | [] => 0
  | a :: rest => (if (counterStep td a).2 then 1 else 0) + signalCount (counterStep td a).1 rest

/-- Specification predicate for the firing behaviour: given the current
_want_abort flag of a still-running counter, whether the action list makes
it post its timeout event — true exactly when an expiry occurs and no
abort preceded it. -/
def willFire : Bool → List TimerAct → Bool
  | _, [] => false
  | _, TimerAct.abortAct :: rest => willFire true rest
  | wa, TimerAct.expireAct :: _ => !wa

theorem signalCount_terminal (td : TimerData) (h : ¬ td.phase = TimerPhase.running) :
    ∀ acts : List TimerAct, signalCount td acts = 0 := by
  intro acts
  induction acts generalizing td with
  | nil => rfl
  | cons a rest ih =>
    cases a with
    | abortAct =>
      simp only [signalCount, counterStep]
      rw [ih (abortCounter td) h]
      simp [abortCounter]
    | expireAct =>
      cases hp : td.phase with
      | running => exact absurd hp h
      | firedPhase =>
        simp only [signalCount, counterStep, hp]
        rw [ih td h]
        simp
      | abortedPhase =>
        simp only [signalCount, counterStep, hp]
        rw [ih td h]
        simp

theorem signalCount_running (wa : Bool) (st : Nat) (acts : List TimerAct) :
    signalCount ⟨wa, TimerPhase.running, st⟩ acts = if willFire wa acts then 1 else 0 := by
  induction acts generalizing wa with
  | nil => rfl
  | cons a rest ih =>
    cases a with
    | abortAct =>
      simp only [signalCount, counterStep, willFire]
      have habort : abortCounter ⟨wa, TimerPhase.running, st⟩ = ⟨true, TimerPhase.running, st⟩ :=
        rfl
      rw [habort, ih true]
      simp
    | expireAct =>
      cases wa with
      | false =>
        have hstep : signalCount ⟨false, TimerPhase.running, st⟩ (TimerAct.expireAct :: rest) =
            1 + signalCount ⟨false, TimerPhase.firedPhase, st⟩ rest := rfl
        rw [hstep, signalCount_terminal ⟨false, TimerPhase.firedPhase, st⟩ (by simp) rest]
        simp [willFire]
      | true =>
        have hstep : signalCount ⟨true, TimerPhase.running, st⟩ (TimerAct.expireAct :: rest) =
            0 + signalCount ⟨true, TimerPhase.abortedPhase, st⟩ rest := rfl
        rw [hstep, signalCount_terminal ⟨true, TimerPhase.abortedPhase, st⟩ (by simp) rest]
        simp [willFire]

/-- C7: DwellTimer terminality — a fresh TimeCounter has neither fired nor
been aborted-before-fire; the two outcomes are mutually exclusive for
every timer record; along any action list a fresh counter posts its
timeout event exactly once if an expiry occurs with no preceding abort and
never otherwise; and a counter whose run() body has returned posts nothing
ever after. -/
theorem timer_fires_once_unless_aborted :
    (∀ st : Nat, ¬ timerFired ⟨false, TimerPhase.running, st⟩ ∧
      ¬ timerAborted ⟨false, TimerPhase.running, st⟩) ∧
    (∀ td : TimerData, ¬ (timerFired td ∧ timerAborted td)) ∧
    (∀ (st : Nat) (acts : List TimerAct),
      signalCount ⟨false, TimerPhase.running, st⟩ acts = if willFire false acts then 1 else 0) ∧
    (∀ (td : TimerData) (acts : List TimerAct), ¬ td.phase = TimerPhase.running →
      signalCount td acts = 0) := by
  refine ⟨?_, ?_, ?_, ?_⟩
  · intro st
    exact ⟨by simp [timerFired], by simp [timerAborted]⟩
  · intro td h
    rcases h with ⟨h1, h2⟩
    rw [timerFired] at h1
    rw [timerAborted] at h2
    rw [h1] at h2
    exact TimerPhase.noConfusion h2
  · intro st acts
    exact signalCount_running false st acts
  · intro td acts h
    exact signalCount_terminal td h acts

/-- Witness for timer_fires_once_unless_aborted: the fresh 60-second
counter is neither fired nor aborted; an abort before expiry suppresses
the signal; an uninterrupted expiry posts exactly one signal even across a
repeated expiry action; a fired counter posts nothing more. -/
theorem timer_fires_once_unless_aborted_witness :
    (¬ timerFired ⟨false, TimerPhase.running, 60⟩ ∧
      ¬ timerAborted ⟨false, TimerPhase.running, 60⟩) ∧
    signalCount ⟨false, TimerPhase.running, 60⟩ [TimerAct.abortAct, TimerAct.expireAct] = 0 ∧
    signalCount ⟨false, TimerPhase.running, 60⟩ [TimerAct.expireAct, TimerAct.expireAct] = 1 ∧
    signalCount ⟨true, TimerPhase.firedPhase, 60⟩ [TimerAct.expireAct] = 0 := by
  refine ⟨timer_fires_once_unless_aborted.1 60, ?_, ?_, ?_⟩
  · have h := timer_fires_once_unless_aborted.2.2.1 60 [TimerAct.abortAct, TimerAct.expireAct]
    simpa using h
  · have h := timer_fires_once_unless_aborted.2.2.1 60 [TimerAct.expireAct, TimerAct.expireAct]
    simpa using h
  · exact timer_fires_once_unless_aborted.2.2.2 ⟨true, TimerPhase.firedPhase, 60⟩
      [TimerAct.expireAct] (by simp)

end Idasen

namespace Idasen

theorem changePosition_accepted_nagging (s : SysState) (ps : Config) (name : String) (t : Nat)
    (hm : containsKey ps name = true)
    (hn : s.naggingEnabled = true)
    (ht : dictGet POSITIONS_TIMES name = some t)
    (ht0 : t ≠ 0) :
    (changePosition s (Except.ok ps) name).1 =
      { s with
          position := some name
          moverCalls := s.moverCalls ++ [name]
          timers := (s.nextId, ⟨false, TimerPhase.running, t * 60⟩) ::
            (match s.counterId with
             | none => s.timers
             | some old => arenaSet s.timers old abortCounter)
          counterId := some s.nextId
          nextId := s.nextId + 1 } := by
  cases hc : s.counterId with
  | none =>
    simp [changePosition, hm, hn, startPositionChangeCounter, ht, ht0, hc]
  | some old =>
    simp [changePosition, hm, hn, startPositionChangeCounter, ht, ht0, hc]

end Idasen

namespace Idasen

/-- C6: Accepted-change postcondition — every request for a name present
in the fresh config read and different from the current position sets the
position to that name and appends exactly one desk-mover invocation for
it, in all cases (nagging disabled or a name with no or zero dwell entry
included); and when nagging is enabled and POSITIONS_TIMES maps the name
to a nonzero dwell, additionally a newly started counter (fresh id, abort
flag clear, running, dwell minutes times 60 of sleep) is stored while the
previously stored counter gets its abort flag set. -/
theorem accepted_change_postcondition (s : SysState) (ps : Config) (name : String)
    (hm : containsKey ps name = true)
    (hne : s.position ≠ some name) :
    ((onPosition s (Except.ok ps) name).1).position = some name ∧
    ((onPosition s (Except.ok ps) name).1).moverCalls = s.moverCalls ++ [name] ∧
    (∀ t : Nat, s.naggingEnabled = true → dictGet POSITIONS_TIMES name = some t → t ≠ 0 →
      ((onPosition s (Except.ok ps) name).1).counterId = some s.nextId ∧
      arenaGet ((onPosition s (Except.ok ps) name).1).timers s.nextId =
        some ⟨false, TimerPhase.running, t * 60⟩ ∧
      (∀ old, s.counterId = some old → old ≠ s.nextId →
        arenaGet ((onPosition s (Except.ok ps) name).1).timers old =
          (arenaGet s.timers old).map abortCounter)) := by
  have h1 : (onPosition s (Except.ok ps) name).1 = (changePosition s (Except.ok ps) name).1 := by
    simp [onPosition, hne]
  have hfields := changePosition_accepted_fields s ps name hm
  refine ⟨by rw [h1]; exact hfields.1, by rw [h1]; exact hfields.2.1, ?_⟩
  intro t hn ht ht0
  rw [h1, changePosition_accepted_nagging s ps name t hm hn ht ht0]
  refine ⟨rfl, arenaGet_cons_self _ _ _, ?_⟩
  intro old hold holdne
  simp only [hold]
  rw [arenaGet_cons_ne _ _ _ _ holdne]
  exact arenaGet_arenaSet_self s.timers old abortCounter

/-- Witness for accepted_change_postcondition: from a state at "stand"
holding running counter 7, a "sit" request moves to "sit", logs one mover
call, and — nagging being on with dwell 1 for "sit" — aborts counter 7 and
stores fresh counter 8. -/
theorem accepted_change_postcondition_witness :
    (containsKey [("sit", 10), ("stand", 74)] "sit" = true ∧
      ({ naggingEnabled := true, position := some "stand", counterId := some 7,
         timers := [(7, ⟨false, TimerPhase.running, 60⟩)], nextId := 8,
         moverCalls := ["stand"] } : SysState).position ≠ some "sit") ∧
    (((onPosition
        { naggingEnabled := true, position := some "stand", counterId := some 7,
          timers := [(7, ⟨false, TimerPhase.running, 60⟩)], nextId := 8,
          moverCalls := ["stand"] }
        (Except.ok [("sit", 10), ("stand", 74)]) "sit").1).position = some "sit" ∧
      ((onPosition
        { naggingEnabled := true, position := some "stand", counterId := some 7,
          timers := [(7, ⟨false, TimerPhase.running, 60⟩)], nextId := 8,
          moverCalls := ["stand"] }
        (Except.ok [("sit", 10), ("stand", 74)]) "sit").1).moverCalls = ["stand"] ++ ["sit"] ∧
      (∀ t : Nat,
        ({ naggingEnabled := true, position := some "stand", counterId := some 7,
           timers := [(7, ⟨false, TimerPhase.running, 60⟩)], nextId := 8,
           moverCalls := ["stand"] } : SysState).naggingEnabled = true →
        dictGet POSITIONS_TIMES "sit" = some t → t ≠ 0 →
        ((onPosition
          { naggingEnabled := true, position := some "stand", counterId := some 7,
            timers := [(7, ⟨false, TimerPhase.running, 60⟩)], nextId := 8,
            moverCalls := ["stand"] }
          (Except.ok [("sit", 10), ("stand", 74)]) "sit").1).counterId = some 8 ∧
        arenaGet ((onPosition
          { naggingEnabled := true, position := some "stand", counterId := some 7,
            timers := [(7, ⟨false, TimerPhase.running, 60⟩)], nextId := 8,
            moverCalls := ["stand"] }
          (Except.ok [("sit", 10), ("stand", 74)]) "sit").1).timers 8 =
          some ⟨false, TimerPhase.running, t * 60⟩ ∧
        (∀ old,
          ({ naggingEnabled := true, position := some "stand", counterId := some 7,
             timers := [(7, ⟨false, TimerPhase.running, 60⟩)], nextId := 8,
             moverCalls := ["stand"] } : SysState).counterId = some old → old ≠ 8 →
          arenaGet ((onPosition
            { naggingEnabled := true, position := some "stand", counterId := some 7,
              timers := [(7, ⟨false, TimerPhase.running, 60⟩)], nextId := 8,
              moverCalls := ["stand"] }
            (Except.ok [("sit", 10), ("stand", 74)]) "sit").1).timers old =
            (arenaGet [(7, ⟨false, TimerPhase.running, 60⟩)] old).map abortCounter))) :=
  ⟨⟨by decide, by decide⟩,
    accepted_change_postcondition
      { naggingEnabled := true, position := some "stand", counterId := some 7,
        timers := [(7, ⟨false, TimerPhase.running, 60⟩)], nextId := 8,
        moverCalls := ["stand"] }
      [("sit", 10), ("stand", 74)] "sit" (by decide) (by decide)⟩

end Idasen

namespace Idasen

/-- C2: Toggle correctness on timeout — when the stored counter's sleep
elapses with its abort flag clear, its run() body posts the timeout event,
whose handler computes the complement of the current position under the
fixed sit/stand rule and re-enters the change path: with both "sit" and
"stand" in the fresh config read, the position becomes the complement, one
desk-mover invocation for it is logged, and a fresh running counter with
60 seconds of sleep (the positive 1-minute dwell) is stored. -/
theorem timeout_toggles_and_restarts (s : SysState) (id : Nat) (td : TimerData) (ps : Config)
    (hn : s.naggingEnabled = true)
    (hc : s.counterId = some id)
    (ha : arenaGet s.timers id = some td)
    (hr : td.phase = TimerPhase.running)
    (hw : td.wantAbort = false)
    (hsit : containsKey ps "sit" = true)
    (hstand : containsKey ps "stand" = true) :
    (expireTimer s id (Except.ok ps)).position = some (nextPositionOf s.position) ∧
    (expireTimer s id (Except.ok ps)).counterId = some s.nextId ∧
    arenaGet (expireTimer s id (Except.ok ps)).timers s.nextId =
      some ⟨false, TimerPhase.running, 60⟩ ∧
    (expireTimer s id (Except.ok ps)).moverCalls = s.moverCalls ++ [nextPositionOf s.position] := by
  have hnx : nextPositionOf s.position = "sit" ∨ nextPositionOf s.position = "stand" := by
    unfold nextPositionOf
    by_cases hp : s.position = some "stand" <;> simp [hp]
  have hmem : containsKey ps (nextPositionOf s.position) = true := by
    rcases hnx with h | h <;> rw [h] <;> assumption
  have hdg : dictGet POSITIONS_TIMES (nextPositionOf s.position) = some 1 := by
    rcases hnx with h | h <;> rw [h]
    · exact dictGet_positions_times_sit
    · exact dictGet_positions_times_stand
  have hexp : expireTimer s id (Except.ok ps) =
      (changePosition
        { s with timers := arenaSet s.timers id fun u => { u with phase := TimerPhase.firedPhase } }
        (Except.ok ps) (nextPositionOf s.position)).1 := by
    simp [expireTimer, ha, hr, hw, togglePosition]
  have hn1 : ({ s with timers := arenaSet s.timers id (fun u => { u with phase := TimerPhase.firedPhase }) } : SysState).naggingEnabled = true := hn
  rw [hexp, changePosition_accepted_nagging _ ps (nextPositionOf s.position) 1 hmem hn1 hdg
      (by decide)]
  exact ⟨rfl, rfl, arenaGet_cons_self _ _ _, rfl⟩

/-- Witness for timeout_toggles_and_restarts: the state reached by a "sit"
request from the initial state; counter 0 expires naturally and the
position toggles to "stand" with fresh counter 1 running. -/
theorem timeout_toggles_and_restarts_witness :
    ((run (initState true) [Cmd.request "sit" (Except.ok [("sit", 10), ("stand", 74)])]).naggingEnabled
        = true ∧
      (run (initState true) [Cmd.request "sit" (Except.ok [("sit", 10), ("stand", 74)])]).counterId
        = some 0 ∧
      arenaGet (run (initState true)
        [Cmd.request "sit" (Except.ok [("sit", 10), ("stand", 74)])]).timers 0 =
        some ⟨false, TimerPhase.running, 60⟩) ∧
    ((expireTimer (run (initState true) [Cmd.request "sit" (Except.ok [("sit", 10), ("stand", 74)])])
        0 (Except.ok [("sit", 10), ("stand", 74)])).position =
      some (nextPositionOf (run (initState true)
        [Cmd.request "sit" (Except.ok [("sit", 10), ("stand", 74)])]).position) ∧
      (expireTimer (run (initState true) [Cmd.request "sit" (Except.ok [("sit", 10), ("stand", 74)])])
        0 (Except.ok [("sit", 10), ("stand", 74)])).counterId =
        some (run (initState true) [Cmd.request "sit" (Except.ok [("sit", 10), ("stand", 74)])]).nextId ∧
      arenaGet (expireTimer (run (initState true)
          [Cmd.request "sit" (Except.ok [("sit", 10), ("stand", 74)])])
        0 (Except.ok [("sit", 10), ("stand", 74)])).timers
        (run (initState true) [Cmd.request "sit" (Except.ok [("sit", 10), ("stand", 74)])]).nextId =
        some ⟨false, TimerPhase.running, 60⟩ ∧
      (expireTimer (run (initState true) [Cmd.request "sit" (Except.ok [("sit", 10), ("stand", 74)])])
        0 (Except.ok [("sit", 10), ("stand", 74)])).moverCalls =
        (run (initState true) [Cmd.request "sit" (Except.ok [("sit", 10), ("stand", 74)])]).moverCalls
          ++ [nextPositionOf (run (initState true)
            [Cmd.request "sit" (Except.ok [("sit", 10), ("stand", 74)])]).position]) :=
  ⟨⟨by decide, by decide, by decide⟩,
    timeout_toggles_and_restarts
      (run (initState true) [Cmd.request "sit" (Except.ok [("sit", 10), ("stand", 74)])])
      0 ⟨false, TimerPhase.running, 60⟩ [("sit", 10), ("stand", 74)]
      (by decide) (by decide) (by decide) (by decide) (by decide) (by decide) (by decide)⟩

end Idasen

namespace Idasen

/-- Invariant of reachable states: every timer in the arena other than the
stored counter has its abort flag set — a timer is unstored only by being
replaced in _start_position_change_counter, which aborts it first. -/
def staleAborted (s : SysState) : Prop :=
  ∀ p ∈ s.timers, some p.1 ≠ s.counterId → p.2.wantAbort = true

theorem staleAborted_initState (b : Bool) : staleAborted (initState b) := by
  intro p hp
  simp [initState] at hp

theorem staleAborted_startCounter {s : SysState} (name : String) (h : staleAborted s) :
    staleAborted (startPositionChangeCounter s name) := by
  unfold startPositionChangeCounter
  cases hd : dictGet POSITIONS_TIMES name with
  | none => exact h
  | some t =>
    by_cases ht : t = 0
    · simp only [ht, if_true]
      exact h
    · simp only [ht, if_false]
      cases hc : s.counterId with
      | none =>
        intro p hp hne
        simp only [List.mem_cons] at hp
        rcases hp with hp | hp
        · subst hp
          simp at hne
        · exact h p hp (by rw [hc]; exact Option.some_ne_none _)
      | some old =>
        intro p hp hne
        simp only [List.mem_cons] at hp
        rcases hp with hp | hp
        · subst hp
          simp at hne
        · rcases arenaSet_mem hp with ⟨q, hq, hq1, hq2⟩
          by_cases hqo : q.1 = old
          · rw [hq2, if_pos hqo]
            rfl
          · rw [hq2, if_neg hqo]
            exact h q hq (by rw [hc]; simp [hqo])

theorem changePosition_state_cases (s : SysState) (cfg : ConfigRead) (name : String) :
    (changePosition s cfg name).1 = s ∨
    (changePosition s cfg name).1 =
      startPositionChangeCounter
        { s with position := some name, moverCalls := s.moverCalls ++ [name] } name ∨
    (changePosition s cfg name).1 =
      { s with position := some name, moverCalls := s.moverCalls ++ [name] } := by
  cases cfg with
  | error e => exact Or.inl rfl
  | ok ps =>
    by_cases hm : containsKey ps name = false
    · simp [changePosition, hm]
    · by_cases hn : s.naggingEnabled <;> simp [changePosition, hm, hn]

theorem staleAborted_changePosition {s : SysState} (cfg : ConfigRead) (name : String)
    (h : staleAborted s) : staleAborted ((changePosition s cfg name).1) := by
  rcases changePosition_state_cases s cfg name with hc | hc | hc <;> rw [hc]
  · exact h
  · exact staleAborted_startCounter name fun p hp hne => h p hp hne
  · exact fun p hp hne => h p hp hne

theorem expireTimer_state_cases (s : SysState) (id : Nat) (cfg : ConfigRead) :
    expireTimer s id cfg = s ∨
    expireTimer s id cfg =
      { s with timers := arenaSet s.timers id (fun u => { u with phase := TimerPhase.abortedPhase }) } ∨
    expireTimer s id cfg =
      (togglePosition { s with timers := arenaSet s.timers id (fun u => { u with phase := TimerPhase.firedPhase }) } cfg).1 := by
  cases ha : arenaGet s.timers id with
  | none => simp [expireTimer, ha]
  | some td =>
    cases hp : td.phase with
    | running =>
      by_cases hw : td.wantAbort = true
      · simp [expireTimer, ha, hp, hw]
      · simp [expireTimer, ha, hp, hw]
    | firedPhase => simp [expireTimer, ha, hp]
    | abortedPhase => simp [expireTimer, ha, hp]

theorem staleAborted_arenaSetPhase {s : SysState} (id : Nat) (ph : TimerPhase)
    (h : staleAborted s) :
    staleAborted { s with timers := arenaSet s.timers id (fun u => { u with phase := ph }) } := by
  intro p hpm hne
  have hpm' : p ∈ arenaSet s.timers id (fun u => { u with phase := ph }) := hpm
  rcases arenaSet_mem hpm' with ⟨q, hq, hq1, hq2⟩
  by_cases hqi : q.1 = id
  · rw [hq2, if_pos hqi]
    exact h q hq (by rw [← hq1]; exact hne)
  · rw [hq2, if_neg hqi]
    exact h q hq (by rw [← hq1]; exact hne)

theorem staleAborted_expireTimer {s : SysState} (id : Nat) (cfg : ConfigRead)
    (h : staleAborted s) : staleAborted (expireTimer s id cfg) := by
  rcases expireTimer_state_cases s id cfg with hc | hc | hc <;> rw [hc]
  · exact h
  · exact staleAborted_arenaSetPhase id TimerPhase.abortedPhase h
  · unfold togglePosition
    exact staleAborted_changePosition _ _ (staleAborted_arenaSetPhase id TimerPhase.firedPhase h)

theorem staleAborted_step {s : SysState} (c : Cmd) (h : staleAborted s) :
    staleAborted (step s c) := by
  cases c with
  | request name cfg =>
    by_cases hp : s.position = some name
    · have heq : step s (Cmd.request name cfg) = s := by
        simp [step, onPosition, hp]
      rw [heq]
      exact h
    · have heq : step s (Cmd.request name cfg) = (changePosition s cfg name).1 := by
        simp [step, onPosition, hp]
      rw [heq]
      exact staleAborted_changePosition cfg name h
  | expire id cfg => exact staleAborted_expireTimer id cfg h

theorem staleAborted_run {s : SysState} (cs : List Cmd) (h : staleAborted s) :
    staleAborted (run s cs) := by
  induction cs generalizing s with
  | nil => exact h
  | cons c cs ih => exact ih (staleAborted_step c h)

end Idasen

namespace Idasen

theorem expire_stale_fields {s : SysState} (id : Nat) (cfg : ConfigRead)
    (h : staleAborted s) (hid : some id ≠ s.counterId) :
    (expireTimer s id cfg).position = s.position ∧
    (expireTimer s id cfg).counterId = s.counterId ∧
    (expireTimer s id cfg).nextId = s.nextId ∧
    (expireTimer s id cfg).moverCalls = s.moverCalls := by
  cases ha : arenaGet s.timers id with
  | none => simp [expireTimer, ha]
  | some td =>
    have hfind : ∃ q ∈ s.timers, q.1 = id ∧ q.2 = td := by
      unfold arenaGet at ha
      cases hf : s.timers.find? (fun p => p.1 = id) with
      | none =>
        rw [hf] at ha
        simp at ha
      | some q =>
        rw [hf] at ha
        simp at ha
        refine ⟨q, List.mem_of_find?_eq_some hf, ?_, ha⟩
        have hpred := List.find?_some hf
        simpa using hpred
    rcases hfind with ⟨q, hqmem, hq1, hq2⟩
    have hwa : td.wantAbort = true := by
      rw [← hq2]
      exact h q hqmem (by rw [hq1]; exact hid)
    cases hp : td.phase with
    | running => simp [expireTimer, ha, hp, hwa]
    | firedPhase => simp [expireTimer, ha, hp]
    | abortedPhase => simp [expireTimer, ha, hp]
end Idasen

namespace Idasen

/-!
Refined model with an explicit GUI event queue. The atomic command stream
above treats posting an event and dispatching its handler as one step; in
the program, wx.PostEvent only appends to the GUI queue and the bound
handler runs later, when the loop reaches that event. In particular,
TimeCounter.run checks _want_abort on the timer thread at wake, before
posting, and _toggle_position dispatches every PositionTimeoutEvent it
receives with no check of which timer posted it — so a timeout that was
already posted when a superseding change is dispatched is not filtered.
-/

/-- An event in the wx GUI event queue. PositionChangeEvent carries the
requested name; PositionTimeoutEvent carries nothing — in particular no
reference to the TimeCounter that posted it. -/
inductive QEvent where
  | posChange : String → QEvent
  | posTimeout : QEvent
deriving DecidableEq, Repr

/-- Frame state together with the pending GUI event queue. -/
structure QState where
  sys : SysState
  queue : List QEvent
deriving DecidableEq, Repr

/-- One occurrence in the refined interleaved execution: a menu click
running TaskBarIcon.on_position on the GUI thread, a TimeCounter thread
resuming from its sleep, or the GUI loop dispatching the queue head (with
the fresh config read any triggered _change_position performs then). -/
inductive QAct where
  | uiRequest : String → QAct
  | timerWake : Nat → QAct
  | dispatch : ConfigRead → QAct

/-- TaskBarIcon.on_position in the refined model: compare the requested
name with the frame's current position now and, unless equal, append a
PositionChangeEvent to the queue (wx.PostEvent). -/
def uiRequestStep (q : QState) (name : String) : QState :=
  if q.sys.position = some name then q
  else { q with queue := q.queue ++ [QEvent.posChange name] }

/-- TimeCounter.run resuming after time.sleep: the _want_abort check runs
here, on the timer thread, before any posting; when the flag is clear the
thread appends a PositionTimeoutEvent to the queue and returns. A timer
whose run() body already returned never wakes again. -/
def timerWakeStep (q : QState) (id : Nat) : QState :=
  match arenaGet q.sys.timers id with
  | none => q
  | some td =>
    match td.phase with
    | TimerPhase.running =>
      if td.wantAbort then
        { q with sys := { q.sys with timers := arenaSet q.sys.timers id (fun u => { u with phase := TimerPhase.abortedPhase }) } }
      else
        { sys := { q.sys with timers := arenaSet q.sys.timers id (fun u => { u with phase := TimerPhase.firedPhase }) }
          queue := q.queue ++ [QEvent.posTimeout] }
    | TimerPhase.firedPhase => q
    | TimerPhase.abortedPhase => q

/-- The GUI loop dispatching the queue head: a PositionChangeEvent runs
_change_position with the fresh config read of this dispatch; a
PositionTimeoutEvent runs _toggle_position, which posts a
PositionChangeEvent for the complement unconditionally — the handler has
no check that the timer that posted the event is still the stored
counter. -/
def dispatchStep (q : QState) (cfg : ConfigRead) : QState :=
  match q.queue with
  | [] => q
  | QEvent.posChange name :: rest =>
    { sys := (changePosition q.sys cfg name).1, queue := rest }
  | QEvent.posTimeout :: rest =>
    { sys := q.sys, queue := rest ++ [QEvent.posChange (nextPositionOf q.sys.position)] }

/-- One step of the refined interleaved execution. -/
def qstep (q : QState) (a : QAct) : QState :=
  match a with
  | QAct.uiRequest name => uiRequestStep q name
  | QAct.timerWake id => timerWakeStep q id
  | QAct.dispatch cfg => dispatchStep q cfg

/-- Run a sequence of occurrences in arrival order. -/
def qrun (q : QState) (acts : List QAct) : QState :=
  acts.foldl qstep q

/-- Fresh frame with an empty event queue. -/
def qinit (nagging : Bool) : QState :=
  { sys := initState nagging, queue := [] }

/-- The suppression the code does provide: when the abort lands before the
timer thread wakes, waking posts nothing and touches nothing but that
timer's own record. -/
theorem timerWake_aborted_posts_nothing (q : QState) (id : Nat) (td : TimerData)
    (ha : arenaGet q.sys.timers id = some td)
    (hw : td.wantAbort = true) :
    (timerWakeStep q id).queue = q.queue ∧
    (timerWakeStep q id).sys.position = q.sys.position ∧
    (timerWakeStep q id).sys.counterId = q.sys.counterId ∧
    (timerWakeStep q id).sys.moverCalls = q.sys.moverCalls := by
  cases hp : td.phase with
  | running => simp [timerWakeStep, ha, hp, hw]
  | firedPhase => simp [timerWakeStep, ha, hp]
  | abortedPhase => simp [timerWakeStep, ha, hp]

/-- C1: the execution on which the code violates the stale-discard rule.
Request "sit" and dispatch it (timer 0 starts); request "stand" (queued);
timer 0 wakes first — its abort flag is still clear, so it posts its
timeout; the queued "stand" change then dispatches, superseding timer 0
(abort flag set too late, timer 1 stored) — at this point the stale
timeout from timer 0, no longer the stored counter, is still pending.
Dispatching it runs _toggle_position unconditionally: the position
toggles back to "sit", the mover is invoked, and fresh timer 2 replaces
timer 1. A timeout whose originating timer is not the stored counter was
not discarded and did affect currentPosition and activeTimer. -/
theorem stale_timeout_toggles_after_post :
    ((qrun (qinit true)
      [QAct.uiRequest "sit", QAct.dispatch (Except.ok [("sit", 10), ("stand", 74)]),
       QAct.uiRequest "stand", QAct.timerWake 0,
       QAct.dispatch (Except.ok [("sit", 10), ("stand", 74)])]).sys.position = some "stand" ∧
     (qrun (qinit true)
      [QAct.uiRequest "sit", QAct.dispatch (Except.ok [("sit", 10), ("stand", 74)]),
       QAct.uiRequest "stand", QAct.timerWake 0,
       QAct.dispatch (Except.ok [("sit", 10), ("stand", 74)])]).sys.counterId = some 1 ∧
     arenaGet (qrun (qinit true)
      [QAct.uiRequest "sit", QAct.dispatch (Except.ok [("sit", 10), ("stand", 74)]),
       QAct.uiRequest "stand", QAct.timerWake 0,
       QAct.dispatch (Except.ok [("sit", 10), ("stand", 74)])]).sys.timers 0 =
       some ⟨true, TimerPhase.firedPhase, 60⟩ ∧
     (qrun (qinit true)
      [QAct.uiRequest "sit", QAct.dispatch (Except.ok [("sit", 10), ("stand", 74)]),
       QAct.uiRequest "stand", QAct.timerWake 0,
       QAct.dispatch (Except.ok [("sit", 10), ("stand", 74)])]).queue = [QEvent.posTimeout]) ∧
    ((qrun (qinit true)
      [QAct.uiRequest "sit", QAct.dispatch (Except.ok [("sit", 10), ("stand", 74)]),
       QAct.uiRequest "stand", QAct.timerWake 0,
       QAct.dispatch (Except.ok [("sit", 10), ("stand", 74)]),
       QAct.dispatch (Except.ok [("sit", 10), ("stand", 74)]),
       QAct.dispatch (Except.ok [("sit", 10), ("stand", 74)])]).sys.position = some "sit" ∧
     (qrun (qinit true)
      [QAct.uiRequest "sit", QAct.dispatch (Except.ok [("sit", 10), ("stand", 74)]),
       QAct.uiRequest "stand", QAct.timerWake 0,
       QAct.dispatch (Except.ok [("sit", 10), ("stand", 74)]),
       QAct.dispatch (Except.ok [("sit", 10), ("stand", 74)]),
       QAct.dispatch (Except.ok [("sit", 10), ("stand", 74)])]).sys.counterId = some 2 ∧
     arenaGet (qrun (qinit true)
      [QAct.uiRequest "sit", QAct.dispatch (Except.ok [("sit", 10), ("stand", 74)]),
       QAct.uiRequest "stand", QAct.timerWake 0,
       QAct.dispatch (Except.ok [("sit", 10), ("stand", 74)]),
       QAct.dispatch (Except.ok [("sit", 10), ("stand", 74)]),
       QAct.dispatch (Except.ok [("sit", 10), ("stand", 74)])]).sys.timers 1 =
       some ⟨true, TimerPhase.running, 60⟩ ∧
     (qrun (qinit true)
      [QAct.uiRequest "sit", QAct.dispatch (Except.ok [("sit", 10), ("stand", 74)]),
       QAct.uiRequest "stand", QAct.timerWake 0,
       QAct.dispatch (Except.ok [("sit", 10), ("stand", 74)]),
       QAct.dispatch (Except.ok [("sit", 10), ("stand", 74)]),
       QAct.dispatch (Except.ok [("sit", 10), ("stand", 74)])]).sys.moverCalls =
       ["sit", "stand", "sit"]) := by
  decide

end Idasen
